import Mathlib

/-!
Shallow embedding of the interaction / highlight-synchronization core of
`rturn` (`src/main.rs`): grid model, z-ordered hit testing, unit selection,
the three highlight reconciliation passes, and the layered renderer's
depth / bounding-box computation.  Rust `u32` values are modelled as `Nat`
and `i32` arithmetic as `Int` with explicit two's-complement wrapping;
`f32` screen coordinates are modelled as rationals (all claim-relevant
behaviour is order/field structure, not rounding).  Bevy `Commands` are
deferred, so each system is modelled as computing its effects from the
state it observed; deferred marker insertion/removal is made explicit as a
command list where ordering matters.
-/

/-- Grid cell coordinate, `struct GridPosition { x: u32, y: u32 }`. -/
structure GridPosition where
  x : Nat
  y : Nat
deriving DecidableEq, Repr

/-- The value of `n as i32` for a `u32` value `n < 2^32`. -/
def toI32 (n : Nat) : Int := if n < 2 ^ 31 then (n : Int) else (n : Int) - 2 ^ 32

/-- Two's-complement wrapping of an integer into the `i32` range. -/
def wrapI32 (v : Int) : Int := (v + 2 ^ 31) % 2 ^ 32 - 2 ^ 31

/-- The value of `v as u32` for an `i32` value `v`. -/
def asU32 (v : Int) : Nat := (v % 2 ^ 32).toNat

/-- `i32::abs` (release semantics: `i32::MIN` maps to itself). -/
def i32Abs (v : Int) : Int := wrapI32 (if v < 0 then -v else v)

/-- `GridPosition::dist`:
`(i32::abs(self.x as i32 - p.x as i32) + i32::abs(self.y as i32 - p.y as i32)) as u32`,
with the `i32` subtraction and addition wrapping. -/
def GridPosition.dist (p q : GridPosition) : Nat :=
  asU32 (wrapI32 (i32Abs (wrapI32 (toI32 p.x - toI32 q.x)) +
    i32Abs (wrapI32 (toI32 p.y - toI32 q.y))))

/-- Plain Manhattan distance, as the spec words it: `|ax-bx| + |ay-by|`. -/
def specManhattan (p q : GridPosition) : Nat :=
  ((p.x : Int) - q.x).natAbs + ((p.y : Int) - q.y).natAbs

/-- `enum GridHighlightType`. -/
inductive GridHighlightType where
  | PlayerUnitMovement
  | PlayerHover
  | PlayerUnitSelected
deriving DecidableEq, Repr

/-- `struct GridHighlight { pos, highlight_type }` — one highlight-marker
entity.  Marker entities carry no other data, so a marker is modelled by
its components; despawn conditions in the reconcilers depend only on
`pos` and `highlight_type`, so dropping the entity id loses nothing. -/
structure GridHighlight where
  pos : GridPosition
  highlight_type : GridHighlightType
deriving DecidableEq, Repr

/-- Bevy `Query::single` / `single_mut`: `Ok` exactly when the query
matches exactly one entity. -/
def single {α : Type} : List α → Option α
  | [a] => some a
  | _ => none

/-- Result of one reconciliation pass: the marker store after the pass's
deferred commands apply, plus the markers it spawned and despawned. -/
structure PassResult where
  markers : List GridHighlight
  spawned : List GridHighlight
  despawned : List GridHighlight
deriving Repr

/-- `handle_hover_grid_highlights`: reconcile `PlayerHover` markers against
the set of hovered grid tiles.  `grid_tiles` is the
`Query<(&GridPosition, &Hoverable), With<GridTileTag>>` result:
(position, hovered) pairs in iteration order. -/
def handle_hover_grid_highlights (markers : List GridHighlight)
    (grid_tiles : List (GridPosition × Bool)) : PassResult :=
  let hover_highlights := markers.filter
    (fun m => decide (m.highlight_type = GridHighlightType.PlayerHover))
  let hovered_tiles : List GridPosition := (grid_tiles.filter (fun t => t.2)).map (fun t => t.1)
  let despawned := hover_highlights.filter (fun m => !decide (m.pos ∈ hovered_tiles))
  let spawned := (hovered_tiles.filter
    (fun p => !decide (p ∈ hover_highlights.map GridHighlight.pos))).map
    (fun p => { pos := p, highlight_type := GridHighlightType.PlayerHover })
  { markers := markers.filter (fun m =>
      !(decide (m.highlight_type = GridHighlightType.PlayerHover) &&
        !decide (m.pos ∈ hovered_tiles))) ++ spawned,
    spawned := spawned,
    despawned := despawned }

/-- `handle_player_unit_selection_movement_highlights`: reconcile
`PlayerUnitMovement` markers against the tiles within the selected unit's
movement range.  `selected_units` is the positions matched by
`Query<&GridPosition, With<SelectedUnit>>`, `grid_tiles` the tile
positions, `player_units` the `Query<(&GridPosition, &MovementRange)>`
results (position, range); the `flying` flag is never read by this
system, so it is omitted from the model. -/
def handle_player_unit_selection_movement_highlights
    (markers : List GridHighlight) (selected_units : List GridPosition)
    (grid_tiles : List GridPosition)
    (player_units : List (GridPosition × Nat)) : PassResult :=
  let existing := markers.filter
    (fun m => decide (m.highlight_type = GridHighlightType.PlayerUnitMovement))
  match single selected_units with
  | some selected_pos =>
    match (player_units.find? (fun u => decide (u.1 = selected_pos))).map
        (fun u => u.2) with
    | some range =>
      let tiles_need_highlight : List GridPosition := grid_tiles.filter
        (fun t => decide (t.dist selected_pos ≤ range) &&
          decide (t.dist selected_pos > 0))
      let despawned := existing.filter
        (fun m => !decide (m.pos ∈ tiles_need_highlight))
      let spawned := (tiles_need_highlight.filter
        (fun p => !decide (p ∈ existing.map GridHighlight.pos))).map
        (fun p => { pos := p, highlight_type := GridHighlightType.PlayerUnitMovement })
      { markers := markers.filter (fun m =>
          !(decide (m.highlight_type = GridHighlightType.PlayerUnitMovement) &&
            !decide (m.pos ∈ tiles_need_highlight))) ++ spawned,
        spawned := spawned,
        despawned := despawned }
    | none => { markers := markers, spawned := [], despawned := [] }
  | none =>
    { markers := markers.filter (fun m =>
        !decide (m.highlight_type = GridHighlightType.PlayerUnitMovement)),
      spawned := [],
      despawned := existing }

/-- `handle_player_unit_selection_grid_highlights`: reconcile the single
`PlayerUnitSelected` marker against the selected unit's tile.  The source
finds `new_selected_tile` by scanning all tiles and keeping the last one
equal to the selected position. -/
def handle_player_unit_selection_grid_highlights
    (markers : List GridHighlight) (grid_tiles : List GridPosition)
    (selected_units : List GridPosition) : PassResult :=
  let existing := markers.filter
    (fun m => decide (m.highlight_type = GridHighlightType.PlayerUnitSelected))
  match single selected_units with
  | some selected_pos =>
    let new_selected_tile := grid_tiles.foldl
      (fun acc t => if selected_pos = t then some t else acc) none
    match new_selected_tile with
    | some t =>
      let need_spawn := !(existing.any (fun m => decide (m.pos = t)))
      let despawned := existing.filter (fun m => !decide (m.pos = t))
      let spawned := if need_spawn then
          [{ pos := t, highlight_type := GridHighlightType.PlayerUnitSelected }]
        else []
      { markers := markers.filter (fun m =>
          !(decide (m.highlight_type = GridHighlightType.PlayerUnitSelected) &&
            !decide (m.pos = t))) ++ spawned,
        spawned := spawned,
        despawned := despawned }
    | none => { markers := markers, spawned := [], despawned := [] }
  | none =>
    { markers := markers.filter (fun m =>
        !decide (m.highlight_type = GridHighlightType.PlayerUnitSelected)),
      spawned := [],
      despawned := existing }

/-- The 16x16 board of `setup_grid_tiles`, in its spawn order
(outer loop x, inner loop y). -/
def tiles16 : List GridPosition :=
  (List.range 16).flatMap (fun x => (List.range 16).map (fun y => ⟨x, y⟩))

theorem wrapI32_eq_self {v : Int} (h1 : -2 ^ 31 ≤ v) (h2 : v < 2 ^ 31) :
    wrapI32 v = v := by
  unfold wrapI32
  omega

theorem i32Abs_small {v : Int} (h1 : -2 ^ 31 < v) (h2 : v < 2 ^ 31) :
    i32Abs v = if v < 0 then -v else v := by
  unfold i32Abs
  split_ifs <;> exact wrapI32_eq_self (by omega) (by omega)

theorem dist_eq_specManhattan {a b : GridPosition}
    (hax : a.x < 2 ^ 30) (hay : a.y < 2 ^ 30)
    (hbx : b.x < 2 ^ 30) (hby : b.y < 2 ^ 30) :
    a.dist b = specManhattan a b := by
  have hx : wrapI32 (toI32 a.x - toI32 b.x) = (a.x : Int) - b.x := by
    unfold toI32
    rw [if_pos (by omega), if_pos (by omega)]
    exact wrapI32_eq_self (by omega) (by omega)
  have hy : wrapI32 (toI32 a.y - toI32 b.y) = (a.y : Int) - b.y := by
    unfold toI32
    rw [if_pos (by omega), if_pos (by omega)]
    exact wrapI32_eq_self (by omega) (by omega)
  unfold GridPosition.dist
  rw [hx, hy, i32Abs_small (by omega) (by omega), i32Abs_small (by omega) (by omega)]
  rw [wrapI32_eq_self (by split_ifs <;> omega) (by split_ifs <;> omega)]
  unfold specManhattan asU32
  split_ifs <;> omega

/-- C9: `GridPosition::dist` is the Manhattan distance `|ax-bx| + |ay-by|`
(for coordinates within the representable range; the spec bounds grid
positions by the 16x16 board), it is non-negative (codomain `Nat`),
symmetric, zero on the diagonal, and `dist (0,0) (3,4) = 7`. -/
theorem dist_spec (a b : GridPosition)
    (hax : a.x < 2 ^ 30) (hay : a.y < 2 ^ 30)
    (hbx : b.x < 2 ^ 30) (hby : b.y < 2 ^ 30) :
    a.dist b = specManhattan a b ∧
    a.dist b = b.dist a ∧
    a.dist a = 0 ∧
    GridPosition.dist ⟨0, 0⟩ ⟨3, 4⟩ = 7 := by
  refine ⟨dist_eq_specManhattan hax hay hbx hby, ?_, ?_, by decide⟩
  · rw [dist_eq_specManhattan hax hay hbx hby, dist_eq_specManhattan hbx hby hax hay]
    unfold specManhattan
    omega
  · rw [dist_eq_specManhattan hax hay hax hay]
    unfold specManhattan
    omega

/-- C9 witness: the distance characterization at concrete positions. -/
theorem dist_spec_witness :
    GridPosition.dist ⟨0, 0⟩ ⟨3, 4⟩ = specManhattan ⟨0, 0⟩ ⟨3, 4⟩ ∧
    GridPosition.dist ⟨0, 0⟩ ⟨3, 4⟩ = GridPosition.dist ⟨3, 4⟩ ⟨0, 0⟩ ∧
    GridPosition.dist ⟨0, 0⟩ ⟨0, 0⟩ = 0 ∧
    GridPosition.dist ⟨0, 0⟩ ⟨3, 4⟩ = 7 :=
  dist_spec ⟨0, 0⟩ ⟨3, 4⟩ (by decide) (by decide) (by decide) (by decide)

/-- C5 (amended): after the movement-range pass with a selected unit whose
position matches a `MovementRange` query entry of range `r`, the positions
carrying a `PlayerUnitMovement` marker are exactly the grid tiles `t` with
`0 < dist t p <= r`; with no (single) selected unit the movement-marker
set is emptied; but when the selected position matches no `MovementRange`
entry the pass leaves the marker store unchanged (it does NOT clear it);
for a unit at (4,4) with range 3 on the 16x16 board the resulting
positions are exactly the in-bounds cells at Manhattan distance 1..3. -/
theorem movement_highlights_spec
    (markers : List GridHighlight) (selected_units : List GridPosition)
    (grid_tiles : List GridPosition) (player_units : List (GridPosition × Nat))
    (p : GridPosition) (r : Nat) :
    (single selected_units = some p →
      (player_units.find? (fun u => decide (u.1 = p))).map (fun u => u.2) = some r →
      ∀ q : GridPosition,
        (q ∈ ((handle_player_unit_selection_movement_highlights markers
            selected_units grid_tiles player_units).markers.filter
            (fun m => decide (m.highlight_type = GridHighlightType.PlayerUnitMovement))).map
            GridHighlight.pos ↔
          q ∈ grid_tiles ∧ 0 < q.dist p ∧ q.dist p ≤ r)) ∧
    (single selected_units = none →
      (handle_player_unit_selection_movement_highlights markers selected_units
        grid_tiles player_units).markers.filter
        (fun m => decide (m.highlight_type = GridHighlightType.PlayerUnitMovement)) = []) ∧
    (single selected_units = some p →
      (player_units.find? (fun u => decide (u.1 = p))).map (fun u => u.2) = none →
      (handle_player_unit_selection_movement_highlights markers selected_units
        grid_tiles player_units).markers = markers) ∧
    ((handle_player_unit_selection_movement_highlights [] [⟨4, 4⟩] tiles16
      [(⟨4, 4⟩, 3)]).markers.map GridHighlight.pos =
      tiles16.filter (fun t => decide (1 ≤ specManhattan t ⟨4, 4⟩) &&
        decide (specManhattan t ⟨4, 4⟩ ≤ 3))) := by
  refine ⟨?_, ?_, ?_, ?_⟩
  · intro hsel hrange q
    simp only [handle_player_unit_selection_movement_highlights, hsel, hrange]
    simp only [List.mem_map, List.mem_filter, List.mem_append, List.map_map,
      decide_eq_true_eq, Bool.and_eq_true, Bool.not_eq_true',
      decide_eq_false_iff_not, gt_iff_lt, Function.comp]
    constructor
    · rintro ⟨m, hm, rfl⟩
      simp only [Bool.and_eq_false_imp, decide_eq_true_eq, Bool.not_eq_false',
        decide_eq_false_iff_not] at hm
      rcases hm with ⟨⟨-, himp⟩ | ⟨a, ⟨⟨hat, har, ha0⟩, -⟩, heq⟩, hk⟩
      · obtain ⟨h1, h2, h3⟩ := himp hk
        exact ⟨h1, h3, h2⟩
      · cases heq
        exact ⟨hat, ha0, har⟩
    · rintro ⟨hqt, hq0, hqr⟩
      by_cases hex : ∃ m, (m ∈ markers ∧
          m.highlight_type = GridHighlightType.PlayerUnitMovement) ∧ m.pos = q
      · rcases hex with ⟨m, ⟨hmm, hmk⟩, rfl⟩
        exact ⟨m, ⟨Or.inl ⟨hmm, by
          simp [hmk, hqt, hq0, hqr, Bool.and_eq_false_imp]⟩, hmk⟩, rfl⟩
      · exact ⟨⟨q, GridHighlightType.PlayerUnitMovement⟩,
          ⟨Or.inr ⟨q, ⟨⟨hqt, hqr, hq0⟩, hex⟩, rfl⟩, rfl⟩, rfl⟩
  · intro hsel
    simp only [handle_player_unit_selection_movement_highlights, hsel]
    simp [List.filter_filter]
  · intro hsel hrange
    simp only [handle_player_unit_selection_movement_highlights, hsel, hrange]
  · decide

/-- C5 witness: the movement-highlight characterization evaluated for the
spawned unit at (4,4) with range 3, at the tile (5,4). -/
theorem movement_highlights_spec_witness :
    (⟨5, 4⟩ : GridPosition) ∈ ((handle_player_unit_selection_movement_highlights
      [] [⟨4, 4⟩] tiles16 [(⟨4, 4⟩, 3)]).markers.filter
      (fun m => decide (m.highlight_type = GridHighlightType.PlayerUnitMovement))).map
      GridHighlight.pos ↔
    (⟨5, 4⟩ : GridPosition) ∈ tiles16 ∧
      0 < GridPosition.dist ⟨5, 4⟩ ⟨4, 4⟩ ∧ GridPosition.dist ⟨5, 4⟩ ⟨4, 4⟩ ≤ 3 :=
  (movement_highlights_spec [] [⟨4, 4⟩] tiles16 [(⟨4, 4⟩, 3)] ⟨4, 4⟩ 3).1
    (by decide) (by decide) ⟨5, 4⟩

/-- C5 counterexample: a selected unit at (0,0) with no `MovementRange`
query entry and a stale movement marker at (5,5): the pass leaves the
marker store untouched, so the movement-highlight set is NOT empty,
contrary to the claim. -/
theorem movement_highlights_counterexample :
    (handle_player_unit_selection_movement_highlights
      [{ pos := ⟨5, 5⟩, highlight_type := GridHighlightType.PlayerUnitMovement }]
      [⟨0, 0⟩] [] []).markers.filter
      (fun m => decide (m.highlight_type = GridHighlightType.PlayerUnitMovement)) ≠ [] := by
  decide

theorem reconcile_sound (markers : List GridHighlight)
    (desired : List GridPosition) (k : GridHighlightType) :
    ∀ m ∈ markers.filter (fun (m : GridHighlight) =>
        !(decide (m.highlight_type = k) && !decide (m.pos ∈ desired))) ++
      (desired.filter (fun p => !decide (p ∈ (markers.filter
        (fun (m : GridHighlight) => decide (m.highlight_type = k))).map GridHighlight.pos))).map
      (fun p => ({ pos := p, highlight_type := k } : GridHighlight)),
      m.highlight_type = k → m.pos ∈ desired := by
  intro m hm hk
  simp only [List.mem_append, List.mem_filter, List.mem_map,
    Bool.and_eq_false_imp, decide_eq_true_eq, Bool.not_eq_false',
    Bool.not_eq_true', decide_eq_false_iff_not] at hm
  rcases hm with ⟨-, himp⟩ | ⟨a, ⟨ha, -⟩, heq⟩
  · exact himp hk
  · cases heq
    exact ha

theorem reconcile_mem (markers : List GridHighlight)
    (desired : List GridPosition) (k : GridHighlightType) (q : GridPosition) :
    q ∈ ((markers.filter (fun (m : GridHighlight) =>
        !(decide (m.highlight_type = k) && !decide (m.pos ∈ desired))) ++
      (desired.filter (fun p => !decide (p ∈ (markers.filter
        (fun (m : GridHighlight) => decide (m.highlight_type = k))).map GridHighlight.pos))).map
      (fun p => ({ pos := p, highlight_type := k } : GridHighlight))).filter
      (fun (m : GridHighlight) => decide (m.highlight_type = k))).map GridHighlight.pos ↔
    q ∈ desired := by
  constructor
  · rintro hq
    simp only [List.mem_map, List.mem_filter, decide_eq_true_eq] at hq
    rcases hq with ⟨m, ⟨hm, hk⟩, rfl⟩
    exact reconcile_sound markers desired k m hm hk
  · intro hq
    simp only [List.mem_map, List.mem_filter, List.mem_append,
      Bool.and_eq_false_imp, decide_eq_true_eq, Bool.not_eq_false',
      Bool.not_eq_true', decide_eq_false_iff_not]
    by_cases hex : ∃ m, (m ∈ markers ∧ m.highlight_type = k) ∧ m.pos = q
    · rcases hex with ⟨m, ⟨hmm, hmk⟩, rfl⟩
      exact ⟨m, ⟨Or.inl ⟨hmm, fun _ => hq⟩, hmk⟩, rfl⟩
    · exact ⟨⟨q, k⟩, ⟨Or.inr ⟨q, ⟨hq, fun hc => hex (by
        simpa only [List.mem_filter, List.mem_map, decide_eq_true_eq] using hc)⟩, rfl⟩,
        rfl⟩, rfl⟩

/-- The marker store produced by one generic reconciliation step (the
common shape of the three passes): keep markers of kind `k` only if their
position is still desired, then append a fresh marker for every desired
position that had none. -/
def reconcileMarkers (markers : List GridHighlight)
    (desired : List GridPosition) (k : GridHighlightType) : List GridHighlight :=
  markers.filter (fun (m : GridHighlight) =>
    !(decide (m.highlight_type = k) && !decide (m.pos ∈ desired))) ++
  (desired.filter (fun p => !decide (p ∈ (markers.filter
    (fun (m : GridHighlight) => decide (m.highlight_type = k))).map GridHighlight.pos))).map
  (fun p => ({ pos := p, highlight_type := k } : GridHighlight))

theorem reconcile_twice_despawned (markers : List GridHighlight)
    (desired : List GridPosition) (k : GridHighlightType) :
    ((reconcileMarkers markers desired k).filter
      (fun m => decide (m.highlight_type = k))).filter
      (fun m => !decide (m.pos ∈ desired)) = [] := by
  simp only [List.filter_eq_nil_iff, List.mem_filter, Bool.not_eq_true',
    decide_eq_false_iff_not, decide_eq_true_eq, not_not]
  rintro m ⟨hm, hk⟩
  exact reconcile_sound markers desired k m hm hk

theorem reconcile_twice_spawned (markers : List GridHighlight)
    (desired : List GridPosition) (k : GridHighlightType) :
    (desired.filter (fun p => !decide (p ∈ ((reconcileMarkers markers desired k).filter
      (fun (m : GridHighlight) => decide (m.highlight_type = k))).map GridHighlight.pos))).map
    (fun p => ({ pos := p, highlight_type := k } : GridHighlight)) = [] := by
  simp only [List.map_eq_nil_iff, List.filter_eq_nil_iff, Bool.not_eq_true',
    decide_eq_false_iff_not, not_not]
  intro p hp
  exact (reconcile_mem markers desired k p).mpr hp

theorem hover_result_eq (markers : List GridHighlight)
    (hover_tiles : List (GridPosition × Bool)) :
    handle_hover_grid_highlights markers hover_tiles =
    { markers := reconcileMarkers markers
        ((hover_tiles.filter (fun t => t.2)).map (fun t => t.1))
        GridHighlightType.PlayerHover,
      spawned := (((hover_tiles.filter (fun t => t.2)).map (fun t => t.1)).filter
        (fun p => !decide (p ∈ (markers.filter (fun (m : GridHighlight) =>
          decide (m.highlight_type = GridHighlightType.PlayerHover))).map
          GridHighlight.pos))).map
        (fun p => ({ pos := p, highlight_type := GridHighlightType.PlayerHover } :
          GridHighlight)),
      despawned := (markers.filter (fun (m : GridHighlight) =>
        decide (m.highlight_type = GridHighlightType.PlayerHover))).filter
        (fun m => !decide (m.pos ∈ (hover_tiles.filter (fun t => t.2)).map
          (fun t => t.1))) } := rfl

theorem movement_result_eq_none (markers : List GridHighlight)
    (selected_units : List GridPosition) (grid_tiles : List GridPosition)
    (player_units : List (GridPosition × Nat))
    (hsel : single selected_units = none) :
    handle_player_unit_selection_movement_highlights markers selected_units
      grid_tiles player_units =
    { markers := markers.filter (fun m =>
        !decide (m.highlight_type = GridHighlightType.PlayerUnitMovement)),
      spawned := [],
      despawned := markers.filter (fun m =>
        decide (m.highlight_type = GridHighlightType.PlayerUnitMovement)) } := by
  simp only [handle_player_unit_selection_movement_highlights, hsel]

theorem movement_result_eq_some_none (markers : List GridHighlight)
    (selected_units : List GridPosition) (grid_tiles : List GridPosition)
    (player_units : List (GridPosition × Nat)) (p : GridPosition)
    (hsel : single selected_units = some p)
    (hrange : (player_units.find? (fun u => decide (u.1 = p))).map
      (fun u => u.2) = none) :
    handle_player_unit_selection_movement_highlights markers selected_units
      grid_tiles player_units =
    { markers := markers, spawned := [], despawned := [] } := by
  simp only [handle_player_unit_selection_movement_highlights, hsel, hrange]

theorem movement_result_eq_some_some (markers : List GridHighlight)
    (selected_units : List GridPosition) (grid_tiles : List GridPosition)
    (player_units : List (GridPosition × Nat)) (p : GridPosition) (r : Nat)
    (hsel : single selected_units = some p)
    (hrange : (player_units.find? (fun u => decide (u.1 = p))).map
      (fun u => u.2) = some r) :
    handle_player_unit_selection_movement_highlights markers selected_units
      grid_tiles player_units =
    { markers := reconcileMarkers markers
        (grid_tiles.filter (fun t => decide (t.dist p ≤ r) && decide (t.dist p > 0)))
        GridHighlightType.PlayerUnitMovement,
      spawned := ((grid_tiles.filter (fun t => decide (t.dist p ≤ r) &&
          decide (t.dist p > 0))).filter
        (fun q => !decide (q ∈ (markers.filter (fun (m : GridHighlight) =>
          decide (m.highlight_type = GridHighlightType.PlayerUnitMovement))).map
          GridHighlight.pos))).map
        (fun q =>
          ({ pos := q, highlight_type := GridHighlightType.PlayerUnitMovement } :
            GridHighlight)),
      despawned := (markers.filter (fun (m : GridHighlight) =>
        decide (m.highlight_type = GridHighlightType.PlayerUnitMovement))).filter
        (fun m => !decide (m.pos ∈ grid_tiles.filter (fun t =>
          decide (t.dist p ≤ r) && decide (t.dist p > 0)))) } := by
  simp only [handle_player_unit_selection_movement_highlights, hsel, hrange]
  rfl

theorem selection_result_eq_none (markers : List GridHighlight)
    (grid_tiles : List GridPosition) (selected_units : List GridPosition)
    (hsel : single selected_units = none) :
    handle_player_unit_selection_grid_highlights markers grid_tiles
      selected_units =
    { markers := markers.filter (fun m =>
        !decide (m.highlight_type = GridHighlightType.PlayerUnitSelected)),
      spawned := [],
      despawned := markers.filter (fun m =>
        decide (m.highlight_type = GridHighlightType.PlayerUnitSelected)) } := by
  simp only [handle_player_unit_selection_grid_highlights, hsel]

theorem selection_result_eq_some_none (markers : List GridHighlight)
    (grid_tiles : List GridPosition) (selected_units : List GridPosition)
    (p : GridPosition)
    (hsel : single selected_units = some p)
    (htile : grid_tiles.foldl (fun acc t => if p = t then some t else acc)
      none = none) :
    handle_player_unit_selection_grid_highlights markers grid_tiles
      selected_units =
    { markers := markers, spawned := [], despawned := [] } := by
  simp only [handle_player_unit_selection_grid_highlights, hsel, htile]

theorem selection_result_eq_some_some (markers : List GridHighlight)
    (grid_tiles : List GridPosition) (selected_units : List GridPosition)
    (p t : GridPosition)
    (hsel : single selected_units = some p)
    (htile : grid_tiles.foldl (fun acc t => if p = t then some t else acc)
      none = some t) :
    handle_player_unit_selection_grid_highlights markers grid_tiles
      selected_units =
    { markers := markers.filter (fun m =>
        !(decide (m.highlight_type = GridHighlightType.PlayerUnitSelected) &&
          !decide (m.pos = t))) ++
        (if !((markers.filter (fun (m : GridHighlight) =>
            decide (m.highlight_type = GridHighlightType.PlayerUnitSelected))).any
            (fun m => decide (m.pos = t))) then
          [{ pos := t, highlight_type := GridHighlightType.PlayerUnitSelected }]
        else []),
      spawned := if !((markers.filter (fun (m : GridHighlight) =>
          decide (m.highlight_type = GridHighlightType.PlayerUnitSelected))).any
          (fun m => decide (m.pos = t))) then
        [{ pos := t, highlight_type := GridHighlightType.PlayerUnitSelected }]
      else [],
      despawned := (markers.filter (fun (m : GridHighlight) =>
        decide (m.highlight_type = GridHighlightType.PlayerUnitSelected))).filter
        (fun m => !decide (m.pos = t)) } := by
  simp only [handle_player_unit_selection_grid_highlights, hsel, htile]

/-- C6: each reconciliation pass is idempotent: running the hover,
movement-range or selection pass a second time on the marker store the
first run produced, with unchanged inputs (hence an unchanged desired
set), spawns no marker and despawns no marker on the second run. -/
theorem reconciliation_idempotent
    (markers : List GridHighlight) (hover_tiles : List (GridPosition × Bool))
    (selected_units : List GridPosition) (grid_tiles : List GridPosition)
    (player_units : List (GridPosition × Nat)) :
    ((handle_hover_grid_highlights
        (handle_hover_grid_highlights markers hover_tiles).markers
        hover_tiles).spawned = [] ∧
      (handle_hover_grid_highlights
        (handle_hover_grid_highlights markers hover_tiles).markers
        hover_tiles).despawned = []) ∧
    ((handle_player_unit_selection_movement_highlights
        (handle_player_unit_selection_movement_highlights markers selected_units
          grid_tiles player_units).markers
        selected_units grid_tiles player_units).spawned = [] ∧
      (handle_player_unit_selection_movement_highlights
        (handle_player_unit_selection_movement_highlights markers selected_units
          grid_tiles player_units).markers
        selected_units grid_tiles player_units).despawned = []) ∧
    ((handle_player_unit_selection_grid_highlights
        (handle_player_unit_selection_grid_highlights markers grid_tiles
          selected_units).markers
        grid_tiles selected_units).spawned = [] ∧
      (handle_player_unit_selection_grid_highlights
        (handle_player_unit_selection_grid_highlights markers grid_tiles
          selected_units).markers
        grid_tiles selected_units).despawned = []) := by
  refine ⟨?_, ?_, ?_⟩
  · rw [hover_result_eq ((handle_hover_grid_highlights markers hover_tiles).markers)
      hover_tiles]
    dsimp only
    rw [hover_result_eq markers hover_tiles]
    dsimp only
    have h1 := reconcile_twice_spawned markers
      ((hover_tiles.filter (fun t => t.2)).map (fun t => t.1))
      GridHighlightType.PlayerHover
    have h2 := reconcile_twice_despawned markers
      ((hover_tiles.filter (fun t => t.2)).map (fun t => t.1))
      GridHighlightType.PlayerHover
    exact ⟨h1, h2⟩
  · cases hsel : single selected_units with
    | none =>
      rw [movement_result_eq_none
        ((handle_player_unit_selection_movement_highlights markers selected_units
          grid_tiles player_units).markers) selected_units grid_tiles player_units hsel]
      dsimp only
      rw [movement_result_eq_none markers selected_units grid_tiles player_units hsel]
      dsimp only
      refine ⟨rfl, ?_⟩
      simp [List.filter_filter]
    | some p =>
      cases hrange : (player_units.find? (fun u => decide (u.1 = p))).map
          (fun u => u.2) with
      | none =>
        rw [movement_result_eq_some_none markers selected_units grid_tiles
          player_units p hsel hrange]
        dsimp only
        rw [movement_result_eq_some_none markers selected_units grid_tiles
          player_units p hsel hrange]
        exact ⟨rfl, rfl⟩
      | some r =>
        rw [movement_result_eq_some_some
          ((handle_player_unit_selection_movement_highlights markers selected_units
            grid_tiles player_units).markers) selected_units grid_tiles
          player_units p r hsel hrange]
        dsimp only
        rw [movement_result_eq_some_some markers selected_units grid_tiles
          player_units p r hsel hrange]
        dsimp only
        have h1 := reconcile_twice_spawned markers
          (grid_tiles.filter (fun t => decide (t.dist p ≤ r) &&
            decide (t.dist p > 0))) GridHighlightType.PlayerUnitMovement
        have h2 := reconcile_twice_despawned markers
          (grid_tiles.filter (fun t => decide (t.dist p ≤ r) &&
            decide (t.dist p > 0))) GridHighlightType.PlayerUnitMovement
        exact ⟨h1, h2⟩
  · cases hsel : single selected_units with
    | none =>
      rw [selection_result_eq_none
        ((handle_player_unit_selection_grid_highlights markers grid_tiles
          selected_units).markers) grid_tiles selected_units hsel]
      dsimp only
      rw [selection_result_eq_none markers grid_tiles selected_units hsel]
      dsimp only
      refine ⟨rfl, ?_⟩
      simp [List.filter_filter]
    | some p =>
      cases htile : grid_tiles.foldl (fun acc t => if p = t then some t else acc)
          none with
      | none =>
        rw [selection_result_eq_some_none markers grid_tiles selected_units p
          hsel htile]
        dsimp only
        rw [selection_result_eq_some_none markers grid_tiles selected_units p
          hsel htile]
        exact ⟨rfl, rfl⟩
      | some t =>
        rw [selection_result_eq_some_some
          ((handle_player_unit_selection_grid_highlights markers grid_tiles
            selected_units).markers) grid_tiles selected_units p t hsel htile]
        dsimp only
        rw [selection_result_eq_some_some markers grid_tiles selected_units p t
          hsel htile]
        dsimp only
        have hany : ((markers.filter (fun (m : GridHighlight) =>
            !(decide (m.highlight_type = GridHighlightType.PlayerUnitSelected) &&
              !decide (m.pos = t))) ++
            (if !((markers.filter (fun (m : GridHighlight) =>
                decide (m.highlight_type = GridHighlightType.PlayerUnitSelected))).any
                (fun m => decide (m.pos = t))) then
              [({ pos := t, highlight_type := GridHighlightType.PlayerUnitSelected } :
                GridHighlight)]
            else [])).filter (fun (m : GridHighlight) =>
            decide (m.highlight_type = GridHighlightType.PlayerUnitSelected))).any
            (fun m => decide (m.pos = t)) = true := by
          cases hc : (markers.filter (fun (m : GridHighlight) =>
              decide (m.highlight_type = GridHighlightType.PlayerUnitSelected))).any
              (fun m => decide (m.pos = t)) with
          | true =>
            rw [List.any_eq_true] at hc
            rcases hc with ⟨m, hm, hmt⟩
            rw [List.mem_filter] at hm
            rw [List.any_eq_true]
            refine ⟨m, ?_, hmt⟩
            rw [List.mem_filter, List.mem_append]
            refine ⟨Or.inl ?_, hm.2⟩
            rw [List.mem_filter]
            exact ⟨hm.1, by simp_all⟩
          | false =>
            rw [List.any_eq_true]
            refine ⟨⟨t, GridHighlightType.PlayerUnitSelected⟩, ?_, by simp⟩
            rw [List.mem_filter, List.mem_append]
            refine ⟨Or.inr ?_, by simp⟩
            simp
        constructor
        · rw [hany]
          simp
        · rw [List.filter_eq_nil_iff]
          rintro m hm
          rw [List.mem_filter, List.mem_append] at hm
          rcases hm with ⟨hm1 | hm2, hk⟩
          · rw [List.mem_filter] at hm1
            rcases hm1 with ⟨-, hpred⟩
            simp only [Bool.not_eq_true', Bool.and_eq_false_imp,
              decide_eq_true_eq, Bool.not_eq_false'] at hpred
            simp [hpred (by simpa using hk)]
          · cases hx : (markers.filter (fun (m : GridHighlight) =>
                decide (m.highlight_type = GridHighlightType.PlayerUnitSelected))).any
                (fun m => decide (m.pos = t)) with
            | true =>
              rw [hx] at hm2
              simp at hm2
            | false =>
              rw [hx] at hm2
              simp only [Bool.not_false, if_true, List.mem_singleton] at hm2
              simp [hm2]

theorem reconcileMarkers_other_kinds (markers : List GridHighlight)
    (desired : List GridPosition) (k : GridHighlightType) :
    (reconcileMarkers markers desired k).filter
      (fun m => !decide (m.highlight_type = k)) =
    markers.filter (fun m => !decide (m.highlight_type = k)) := by
  unfold reconcileMarkers
  rw [List.filter_append]
  have hs : ((desired.filter (fun p => !decide (p ∈ (markers.filter
      (fun (m : GridHighlight) => decide (m.highlight_type = k))).map
      GridHighlight.pos))).map
      (fun p => ({ pos := p, highlight_type := k } : GridHighlight))).filter
      (fun m => !decide (m.highlight_type = k)) = [] := by
    rw [List.filter_eq_nil_iff]
    intro m hm
    rw [List.mem_map] at hm
    rcases hm with ⟨a, -, rfl⟩
    simp
  rw [hs, List.append_nil, List.filter_filter]
  apply List.filter_congr
  intro m _
  by_cases h : m.highlight_type = k
  · simp [h]
  · simp [h]

theorem reconcile_spawned_kind (markers : List GridHighlight)
    (desired : List GridPosition) (k : GridHighlightType) :
    ∀ m ∈ (desired.filter (fun p => !decide (p ∈ (markers.filter
        (fun (m : GridHighlight) => decide (m.highlight_type = k))).map
        GridHighlight.pos))).map
      (fun p => ({ pos := p, highlight_type := k } : GridHighlight)),
      m.highlight_type = k := by
  intro m hm
  rw [List.mem_map] at hm
  rcases hm with ⟨a, -, rfl⟩
  rfl

theorem filter_kind_mem (markers : List GridHighlight) (k : GridHighlightType) :
    ∀ m ∈ markers.filter (fun (m : GridHighlight) =>
      decide (m.highlight_type = k)), m.highlight_type = k := by
  intro m hm
  rw [List.mem_filter] at hm
  exact of_decide_eq_true hm.2

/-- C10: each reconciliation pass touches only markers of its own kind:
the hover pass spawns/despawns only `PlayerHover` markers and leaves the
sublist of non-hover markers unchanged, the selection pass likewise for
`PlayerUnitSelected`, and the movement pass for `PlayerUnitMovement`. -/
theorem pass_kind_isolation
    (markers : List GridHighlight) (hover_tiles : List (GridPosition × Bool))
    (selected_units : List GridPosition) (grid_tiles : List GridPosition)
    (player_units : List (GridPosition × Nat)) :
    ((handle_hover_grid_highlights markers hover_tiles).markers.filter
        (fun m => !decide (m.highlight_type = GridHighlightType.PlayerHover)) =
      markers.filter (fun m =>
        !decide (m.highlight_type = GridHighlightType.PlayerHover)) ∧
      (∀ m ∈ (handle_hover_grid_highlights markers hover_tiles).spawned,
        m.highlight_type = GridHighlightType.PlayerHover) ∧
      (∀ m ∈ (handle_hover_grid_highlights markers hover_tiles).despawned,
        m.highlight_type = GridHighlightType.PlayerHover)) ∧
    ((handle_player_unit_selection_grid_highlights markers grid_tiles
        selected_units).markers.filter
        (fun m => !decide (m.highlight_type = GridHighlightType.PlayerUnitSelected)) =
      markers.filter (fun m =>
        !decide (m.highlight_type = GridHighlightType.PlayerUnitSelected)) ∧
      (∀ m ∈ (handle_player_unit_selection_grid_highlights markers grid_tiles
        selected_units).spawned,
        m.highlight_type = GridHighlightType.PlayerUnitSelected) ∧
      (∀ m ∈ (handle_player_unit_selection_grid_highlights markers grid_tiles
        selected_units).despawned,
        m.highlight_type = GridHighlightType.PlayerUnitSelected)) ∧
    ((handle_player_unit_selection_movement_highlights markers selected_units
        grid_tiles player_units).markers.filter
        (fun m => !decide (m.highlight_type = GridHighlightType.PlayerUnitMovement)) =
      markers.filter (fun m =>
        !decide (m.highlight_type = GridHighlightType.PlayerUnitMovement)) ∧
      (∀ m ∈ (handle_player_unit_selection_movement_highlights markers
        selected_units grid_tiles player_units).spawned,
        m.highlight_type = GridHighlightType.PlayerUnitMovement) ∧
      (∀ m ∈ (handle_player_unit_selection_movement_highlights markers
        selected_units grid_tiles player_units).despawned,
        m.highlight_type = GridHighlightType.PlayerUnitMovement)) := by
  refine ⟨?_, ?_, ?_⟩
  · rw [hover_result_eq markers hover_tiles]
    dsimp only
    have h1 := reconcileMarkers_other_kinds markers
      ((hover_tiles.filter (fun t => t.2)).map (fun t => t.1))
      GridHighlightType.PlayerHover
    have h2 := reconcile_spawned_kind markers
      ((hover_tiles.filter (fun t => t.2)).map (fun t => t.1))
      GridHighlightType.PlayerHover
    refine ⟨h1, h2, ?_⟩
    intro m hm
    rw [List.mem_filter] at hm
    exact filter_kind_mem markers GridHighlightType.PlayerHover m hm.1
  · cases hsel : single selected_units with
    | none =>
      rw [selection_result_eq_none markers grid_tiles selected_units hsel]
      dsimp only
      refine ⟨by simp [List.filter_filter, Bool.and_self], by simp, ?_⟩
      exact filter_kind_mem markers GridHighlightType.PlayerUnitSelected
    | some p =>
      cases htile : grid_tiles.foldl (fun acc t => if p = t then some t else acc)
          none with
      | none =>
        rw [selection_result_eq_some_none markers grid_tiles selected_units p
          hsel htile]
        dsimp only
        exact ⟨rfl, by simp, by simp⟩
      | some t =>
        rw [selection_result_eq_some_some markers grid_tiles selected_units p t
          hsel htile]
        dsimp only
        refine ⟨?_, ?_, ?_⟩
        · rw [List.filter_append]
          have h2 : (if !((markers.filter (fun (m : GridHighlight) =>
              decide (m.highlight_type = GridHighlightType.PlayerUnitSelected))).any
              (fun m => decide (m.pos = t))) then
                [({ pos := t, highlight_type := GridHighlightType.PlayerUnitSelected } : GridHighlight)]
              else []).filter (fun m =>
              !decide (m.highlight_type = GridHighlightType.PlayerUnitSelected)) = [] := by
            split_ifs <;> simp
          rw [h2, List.append_nil, List.filter_filter]
          apply List.filter_congr
          intro m _
          by_cases h : m.highlight_type = GridHighlightType.PlayerUnitSelected
          · simp [h]
          · simp [h]
        · intro m hm
          split_ifs at hm with h
          · rw [List.mem_singleton] at hm
            cases hm
            rfl
          · simp at hm
        · intro m hm
          rw [List.mem_filter] at hm
          exact filter_kind_mem markers GridHighlightType.PlayerUnitSelected m hm.1
  · cases hsel : single selected_units with
    | none =>
      rw [movement_result_eq_none markers selected_units grid_tiles player_units hsel]
      dsimp only
      refine ⟨by simp [List.filter_filter, Bool.and_self], by simp, ?_⟩
      exact filter_kind_mem markers GridHighlightType.PlayerUnitMovement
    | some p =>
      cases hrange : (player_units.find? (fun u => decide (u.1 = p))).map
          (fun u => u.2) with
      | none =>
        rw [movement_result_eq_some_none markers selected_units grid_tiles
          player_units p hsel hrange]
        dsimp only
        exact ⟨rfl, by simp, by simp⟩
      | some r =>
        rw [movement_result_eq_some_some markers selected_units grid_tiles
          player_units p r hsel hrange]
        dsimp only
        have h1 := reconcileMarkers_other_kinds markers
          (grid_tiles.filter (fun t => decide (t.dist p ≤ r) &&
            decide (t.dist p > 0))) GridHighlightType.PlayerUnitMovement
        have h2 := reconcile_spawned_kind markers
          (grid_tiles.filter (fun t => decide (t.dist p ≤ r) &&
            decide (t.dist p > 0))) GridHighlightType.PlayerUnitMovement
        refine ⟨h1, h2, ?_⟩
        intro m hm
        rw [List.mem_filter] at hm
        exact filter_kind_mem markers GridHighlightType.PlayerUnitMovement m hm.1

/-- `Rect<f32>` bounding box; `f32` coordinates modelled by rationals. -/
structure BBox where
  top : Rat
  bottom : Rat
  left : Rat
  right : Rat
deriving DecidableEq, Repr

/-- `Rect::<f32>::contains_point`:
`p.x < right && p.x > left && p.y > bottom && p.y < top` (strict). -/
def contains_point (b : BBox) (px py : Rat) : Bool :=
  decide (px < b.right) && decide (px > b.left) &&
  decide (py > b.bottom) && decide (py < b.top)

/-- One row of `handle_mouse_interactions`' query:
`(Entity, &MouseInteractible, Option<&mut Hoverable>, Option<&mut Clickable>)`.
`hovered`/`clicked` are `none` when the component is absent. -/
structure MouseEntity where
  id : Nat
  bounding_box : BBox
  z : Nat
  hovered : Option Bool
  clicked : Option Bool
deriving DecidableEq, Repr

/-- The per-entity flag updates of the `handle_mouse_interactions` loop
(the winner accumulation is independent and modelled separately): inside
the box on a click frame nothing is written; inside without a click sets
hovered and clears clicked; outside clears both. -/
def mouse_loop_update (clicked_edge : Bool) (px py : Rat)
    (e : MouseEntity) : MouseEntity :=
  if contains_point e.bounding_box px py then
    if clicked_edge then e
    else { e with hovered := e.hovered.map (fun _ => true),
                  clicked := e.clicked.map (fun _ => false) }
  else { e with hovered := e.hovered.map (fun _ => false),
                clicked := e.clicked.map (fun _ => false) }

/-- The `highest_z_clicked` accumulation of `handle_mouse_interactions`:
first candidate wins ties (strict `>` comparison). Returns `(z, id)`. -/
def highest_z_clicked (px py : Rat) :
    List MouseEntity → Option (Nat × Nat) → Option (Nat × Nat)
  | [], acc => acc
  | e :: es, acc =>
    highest_z_clicked px py es
      (if contains_point e.bounding_box px py then
        match acc with
        | some zi => if e.z > zi.1 then some (e.z, e.id) else acc
        | none => some (e.z, e.id)
      else acc)

/-- `handle_mouse_interactions` for a frame with the cursor present:
`clicked_edge` is `mouse_input.just_pressed(MouseButton::Left)`, `(px, py)`
the window-center-relative cursor position; returns the updated entities
and the new `LastClick.was_handled`.  With the cursor absent the system
is a no-op.  The winner entity gets `hovered = false, clicked = true`;
`was_handled` is overwritten (to whether a winner existed) only on a
click edge. -/
def handle_mouse_interactions (clicked_edge : Bool) (px py : Rat)
    (entities : List MouseEntity) (last_click : Bool) :
    List MouseEntity × Bool :=
  let winner := if clicked_edge then highest_z_clicked px py entities none else none
  let es1 := entities.map (mouse_loop_update clicked_edge px py)
  let es2 := match winner with
    | some zi => es1.map (fun e =>
        if e.id = zi.2 then
          { e with hovered := e.hovered.map (fun _ => false),
                   clicked := e.clicked.map (fun _ => true) }
        else e)
    | none => es1
  (es2, if clicked_edge then winner.isSome else last_click)

theorem mouse_loop_update_id (c : Bool) (px py : Rat) (e : MouseEntity) :
    (mouse_loop_update c px py e).id = e.id := by
  unfold mouse_loop_update
  split_ifs <;> rfl

theorem mouse_loop_update_box (c : Bool) (px py : Rat) (e : MouseEntity) :
    (mouse_loop_update c px py e).bounding_box = e.bounding_box := by
  unfold mouse_loop_update
  split_ifs <;> rfl

theorem mouse_loop_update_z (c : Bool) (px py : Rat) (e : MouseEntity) :
    (mouse_loop_update c px py e).z = e.z := by
  unfold mouse_loop_update
  split_ifs <;> rfl

theorem mouse_loop_update_clean (px py : Rat) (e : MouseEntity)
    (hc : e.clicked = some false) (hh : e.hovered = some false) :
    (mouse_loop_update true px py e).clicked = some false ∧
    (mouse_loop_update true px py e).hovered = some false := by
  unfold mouse_loop_update
  split_ifs with h1 h2
  · exact ⟨hc, hh⟩
  · exact absurd rfl h2
  · simp [hc, hh]

theorem highest_z_none (px py : Rat) (es : List MouseEntity) :
    ∀ acc, highest_z_clicked px py es acc = none →
      acc = none ∧ ∀ e ∈ es, contains_point e.bounding_box px py = false := by
  induction es with
  | nil =>
    intro acc h
    exact ⟨h, by simp⟩
  | cons e tl ih =>
    intro acc h
    simp only [highest_z_clicked] at h
    cases hc : contains_point e.bounding_box px py with
    | true =>
      rw [hc] at h
      exfalso
      have hnone := (ih _ h).1
      cases hacc : acc with
      | some zi =>
        rw [hacc] at hnone
        dsimp only at hnone
        split_ifs at hnone
      | none =>
        rw [hacc] at hnone
        exact Option.noConfusion hnone
    | false =>
      rw [hc, if_neg (by simp)] at h
      rcases ih acc h with ⟨h1, h2⟩
      refine ⟨h1, ?_⟩
      intro e' he'
      rcases List.mem_cons.1 he' with rfl | he'
      · exact hc
      · exact h2 e' he'

theorem highest_z_some (px py : Rat) (es : List MouseEntity) :
    ∀ acc zi, highest_z_clicked px py es acc = some zi →
      (acc = some zi ∨ ∃ e ∈ es, contains_point e.bounding_box px py = true ∧
        e.z = zi.1 ∧ e.id = zi.2) ∧
      (∀ e ∈ es, contains_point e.bounding_box px py = true → e.z ≤ zi.1) ∧
      (∀ zj, acc = some zj → zj.1 ≤ zi.1) := by
  induction es with
  | nil =>
    intro acc zi h
    refine ⟨Or.inl h, by simp, ?_⟩
    intro zj hj
    rw [hj] at h
    cases h
    exact le_refl _
  | cons e tl ih =>
    intro acc zi h
    simp only [highest_z_clicked] at h
    cases hc : contains_point e.bounding_box px py with
    | true =>
      rw [hc, if_pos rfl] at h
      cases hacc : acc with
      | none =>
        rw [hacc] at h
        dsimp only at h
        rcases ih _ _ h with ⟨h1, h2, h3⟩
        have hze : e.z ≤ zi.1 := h3 (e.z, e.id) rfl
        refine ⟨?_, ?_, ?_⟩
        · rcases h1 with h1 | ⟨e', he', hc', hz', hi'⟩
          · cases h1
            exact Or.inr ⟨e, List.mem_cons_self e tl, hc, rfl, rfl⟩
          · exact Or.inr ⟨e', List.mem_cons_of_mem e he', hc', hz', hi'⟩
        · intro e' he'
          rcases List.mem_cons.1 he' with rfl | he'
          · intro _
            exact hze
          · exact h2 e' he'
        · intro zj hj
          exact Option.noConfusion hj
      | some zj =>
        rw [hacc] at h
        dsimp only at h
        by_cases hgt : e.z > zj.1
        · rw [if_pos hgt] at h
          rcases ih _ _ h with ⟨h1, h2, h3⟩
          have hze : e.z ≤ zi.1 := h3 (e.z, e.id) rfl
          refine ⟨?_, ?_, ?_⟩
          · rcases h1 with h1 | ⟨e', he', hc', hz', hi'⟩
            · cases h1
              exact Or.inr ⟨e, List.mem_cons_self e tl, hc, rfl, rfl⟩
            · exact Or.inr ⟨e', List.mem_cons_of_mem e he', hc', hz', hi'⟩
          · intro e' he'
            rcases List.mem_cons.1 he' with rfl | he'
            · intro _
              exact hze
            · exact h2 e' he'
          · intro zk hk
            cases hk
            exact le_trans (le_of_lt hgt) hze
        · rw [if_neg hgt] at h
          rcases ih _ _ h with ⟨h1, h2, h3⟩
          have hzj : zj.1 ≤ zi.1 := h3 zj rfl
          refine ⟨?_, ?_, ?_⟩
          · rcases h1 with h1 | ⟨e', he', hc', hz', hi'⟩
            · exact Or.inl (hacc ▸ h1)
            · exact Or.inr ⟨e', List.mem_cons_of_mem e he', hc', hz', hi'⟩
          · intro e' he'
            rcases List.mem_cons.1 he' with rfl | he'
            · intro _
              exact le_trans (le_of_not_lt hgt) hzj
            · exact h2 e' he'
          · intro zk hk
            cases hk
            exact hzj
    | false =>
      rw [hc, if_neg (by simp)] at h
      rcases ih _ _ h with ⟨h1, h2, h3⟩
      refine ⟨?_, ?_, h3⟩
      · rcases h1 with h1 | ⟨e', he', hc', hz', hi'⟩
        · exact Or.inl h1
        · exact Or.inr ⟨e', List.mem_cons_of_mem e he', hc', hz', hi'⟩
      · intro e' he'
        rcases List.mem_cons.1 he' with rfl | he'
        · intro hcc
          exact absurd hcc (by simp [hc])
        · exact h2 e' he'

theorem hmi_result_eq_some (px py : Rat) (entities : List MouseEntity)
    (last_click : Bool) (zi : Nat × Nat)
    (hw : highest_z_clicked px py entities none = some zi) :
    handle_mouse_interactions true px py entities last_click =
    (entities.map (fun e =>
      if (mouse_loop_update true px py e).id = zi.2 then
        { mouse_loop_update true px py e with
          hovered := (mouse_loop_update true px py e).hovered.map (fun _ => false),
          clicked := (mouse_loop_update true px py e).clicked.map (fun _ => true) }
      else mouse_loop_update true px py e), true) := by
  simp only [handle_mouse_interactions, if_true, hw, List.map_map, Option.isSome_some]
  rfl

theorem hmi_result_eq_none (px py : Rat) (entities : List MouseEntity)
    (last_click : Bool)
    (hw : highest_z_clicked px py entities none = none) :
    handle_mouse_interactions true px py entities last_click =
    (entities.map (mouse_loop_update true px py), false) := by
  simp only [handle_mouse_interactions, if_true, hw, Option.isSome_none]

theorem length_filter_id_eq_one (i : Nat) :
    ∀ es : List MouseEntity, (es.map MouseEntity.id).Nodup →
      (∃ e ∈ es, e.id = i) →
      (es.filter (fun e => decide (e.id = i))).length = 1 := by
  intro es
  induction es with
  | nil =>
    rintro - ⟨e, he, -⟩
    exact absurd he (List.not_mem_nil e)
  | cons e tl ih =>
    rintro hnd ⟨e', he', hi'⟩
    rw [List.map_cons, List.nodup_cons] at hnd
    rcases List.mem_cons.1 he' with rfl | he'
    · rw [List.filter_cons, if_pos (by simp [hi'])]
      rw [List.length_cons]
      have htl : tl.filter (fun e => decide (e.id = i)) = [] := by
        rw [List.filter_eq_nil_iff]
        intro a ha hdec
        apply hnd.1
        rw [List.mem_map]
        exact ⟨a, ha, by
          have := of_decide_eq_true hdec
          rw [this, hi']⟩
      rw [htl]
      rfl
    · rw [List.filter_cons]
      have hne : ¬(e.id = i) := by
        intro hei
        apply hnd.1
        rw [List.mem_map]
        exact ⟨e', he', by rw [hi', hei]⟩
      rw [if_neg (by simp [hne])]
      exact ih hnd.2 ⟨e', he', hi'⟩

theorem winner_map_spec (px py : Rat) (zi : Nat × Nat) (e : MouseEntity)
    (hc : e.clicked = some false) (hh : e.hovered = some false) :
    (if (mouse_loop_update true px py e).id = zi.2 then
        { mouse_loop_update true px py e with
          hovered := (mouse_loop_update true px py e).hovered.map (fun _ => false),
          clicked := (mouse_loop_update true px py e).clicked.map (fun _ => true) }
      else mouse_loop_update true px py e).clicked =
      (if e.id = zi.2 then some true else some false) ∧
    (if (mouse_loop_update true px py e).id = zi.2 then
        { mouse_loop_update true px py e with
          hovered := (mouse_loop_update true px py e).hovered.map (fun _ => false),
          clicked := (mouse_loop_update true px py e).clicked.map (fun _ => true) }
      else mouse_loop_update true px py e).hovered = some false ∧
    (if (mouse_loop_update true px py e).id = zi.2 then
        { mouse_loop_update true px py e with
          hovered := (mouse_loop_update true px py e).hovered.map (fun _ => false),
          clicked := (mouse_loop_update true px py e).clicked.map (fun _ => true) }
      else mouse_loop_update true px py e).bounding_box = e.bounding_box ∧
    (if (mouse_loop_update true px py e).id = zi.2 then
        { mouse_loop_update true px py e with
          hovered := (mouse_loop_update true px py e).hovered.map (fun _ => false),
          clicked := (mouse_loop_update true px py e).clicked.map (fun _ => true) }
      else mouse_loop_update true px py e).z = e.z := by
  rcases mouse_loop_update_clean px py e hc hh with ⟨hc1, hh1⟩
  rw [mouse_loop_update_id]
  by_cases hid : e.id = zi.2
  · rw [if_pos hid, if_pos hid]
    refine ⟨?_, ?_, ?_, ?_⟩
    · show ((mouse_loop_update true px py e).clicked.map (fun _ => true)) = some true
      rw [hc1]
      rfl
    · show ((mouse_loop_update true px py e).hovered.map (fun _ => false)) = some false
      rw [hh1]
      rfl
    · show (mouse_loop_update true px py e).bounding_box = e.bounding_box
      exact mouse_loop_update_box true px py e
    · show (mouse_loop_update true px py e).z = e.z
      exact mouse_loop_update_z true px py e
  · rw [if_neg hid, if_neg hid]
    exact ⟨hc1, hh1, mouse_loop_update_box true px py e, mouse_loop_update_z true px py e⟩

/-- C1 (amended): on a click-edge frame with the pointer inside at least
one interactible's bounding box, provided entity ids are distinct and
every entity enters the hit-test with `clicked = some false` and
`hovered = some false` (the steady-state the hit-tester itself
establishes), exactly one entity ends the pass with `clicked = true`; any
such entity is a candidate of maximal z-priority; and every entity that
does not end clicked ends with `clicked = false` and `hovered = false`.
(Without the clean-flag precondition a losing candidate retains its
stale `hovered`/`clicked` values, because the source writes nothing to
candidates that lose the z comparison.) -/
theorem hit_test_exclusivity (px py : Rat) (entities : List MouseEntity)
    (last_click : Bool)
    (hnd : (entities.map MouseEntity.id).Nodup)
    (hclean : ∀ e ∈ entities, e.clicked = some false ∧ e.hovered = some false)
    (hcand : ∃ e ∈ entities, contains_point e.bounding_box px py = true) :
    ((handle_mouse_interactions true px py entities last_click).1.filter
      (fun e => decide (e.clicked = some true))).length = 1 ∧
    (∀ e' ∈ (handle_mouse_interactions true px py entities last_click).1,
      e'.clicked = some true →
        contains_point e'.bounding_box px py = true ∧
        ∀ e ∈ entities, contains_point e.bounding_box px py = true → e.z ≤ e'.z) ∧
    (∀ e' ∈ (handle_mouse_interactions true px py entities last_click).1,
      e'.clicked ≠ some true →
        e'.clicked = some false ∧ e'.hovered = some false) := by
  rcases hcand with ⟨e0, he0, hc0⟩
  cases hw : highest_z_clicked px py entities none with
  | none =>
    exact absurd hc0 (by simp [(highest_z_none px py entities none hw).2 e0 he0])
  | some zi =>
    obtain ⟨hex, hmax, -⟩ := highest_z_some px py entities none zi hw
    rcases hex with hex | ⟨ew, hew, hcw, hzw, hiw⟩
    · exact Option.noConfusion hex
    rw [hmi_result_eq_some px py entities last_click zi hw]
    dsimp only
    refine ⟨?_, ?_, ?_⟩
    · rw [List.filter_map, List.length_map]
      have hcongr : entities.filter ((fun e => decide (e.clicked = some true)) ∘
          (fun e =>
            if (mouse_loop_update true px py e).id = zi.2 then
              { mouse_loop_update true px py e with
                hovered := (mouse_loop_update true px py e).hovered.map (fun _ => false),
                clicked := (mouse_loop_update true px py e).clicked.map (fun _ => true) }
            else mouse_loop_update true px py e)) =
          entities.filter (fun e => decide (e.id = zi.2)) := by
        apply List.filter_congr
        intro e he
        rcases hclean e he with ⟨hc, hh⟩
        rcases winner_map_spec px py zi e hc hh with ⟨h1, -, -, -⟩
        show decide (_ = some true) = decide (e.id = zi.2)
        rw [h1]
        by_cases hid : e.id = zi.2
        · rw [if_pos hid]
          simp [hid]
        · rw [if_neg hid]
          simp [hid]
      rw [hcongr]
      exact length_filter_id_eq_one zi.2 entities hnd ⟨ew, hew, hiw⟩
    · intro e' he' hck
      rw [List.mem_map] at he'
      rcases he' with ⟨e, he, rfl⟩
      rcases hclean e he with ⟨hc, hh⟩
      rcases winner_map_spec px py zi e hc hh with ⟨h1, -, h3, h4⟩
      by_cases hid : e.id = zi.2
      · have heew : e = ew :=
          List.inj_on_of_nodup_map hnd he hew (by rw [hid, hiw])
        subst heew
        rw [h3, h4]
        refine ⟨hcw, ?_⟩
        intro e2 he2 hc2
        rw [hzw]
        exact hmax e2 he2 hc2
      · rw [h1, if_neg hid] at hck
        simp at hck
    · intro e' he' hck
      rw [List.mem_map] at he'
      rcases he' with ⟨e, he, rfl⟩
      rcases hclean e he with ⟨hc, hh⟩
      rcases winner_map_spec px py zi e hc hh with ⟨h1, h2, -, -⟩
      by_cases hid : e.id = zi.2
      · rw [h1, if_pos hid] at hck
        exact absurd rfl hck
      · rw [h1, if_neg hid]
        exact ⟨rfl, h2⟩

/-- C1 witness: two overlapping clean-flag candidates with z = 0 and
z = 10; exactly one entity ends the click frame clicked. -/
theorem hit_test_exclusivity_witness :
    ((handle_mouse_interactions true 0 0
      [⟨1, ⟨1, -1, -1, 1⟩, 0, some false, some false⟩,
       ⟨2, ⟨1, -1, -1, 1⟩, 10, some false, some false⟩] false).1.filter
      (fun e => decide (e.clicked = some true))).length = 1 :=
  (hit_test_exclusivity 0 0
    [⟨1, ⟨1, -1, -1, 1⟩, 0, some false, some false⟩,
     ⟨2, ⟨1, -1, -1, 1⟩, 10, some false, some false⟩] false
    (by decide) (by decide)
    ⟨⟨1, ⟨1, -1, -1, 1⟩, 0, some false, some false⟩, by decide, by decide⟩).1

/-- C1 counterexample: two candidates under the pointer on a click edge;
the losing candidate (z = 0) entered the frame with a stale
`hovered = true` and the hit-tester leaves it untouched, so it ends the
frame hovered — the claim requires every non-clicked entity to end with
`hovered = false`. -/
theorem hit_test_counterexample :
    (handle_mouse_interactions true 0 0
      [⟨1, ⟨1, -1, -1, 1⟩, 0, some true, some false⟩,
       ⟨2, ⟨1, -1, -1, 1⟩, 10, some false, some false⟩] false).1.map
      (fun e => (e.clicked, e.hovered)) =
      [(some false, some true), (some true, some false)] := by
  decide

/-- A deferred `Commands` operation on the `SelectedUnit` marker:
`commands.entity(id).insert(SelectedUnit)` / `.remove::<SelectedUnit>()`. -/
inductive SelCmd where
  | ins (id : Nat)
  | rem (id : Nat)
deriving DecidableEq, Repr

/-- Apply one deferred command to the set (list of entity ids) of
`SelectedUnit` carriers: insert is idempotent, remove drops the id. -/
def applySelCmd (selected : List Nat) : SelCmd → List Nat
  | SelCmd.ins i => if decide (i ∈ selected) then selected else selected ++ [i]
  | SelCmd.rem i => selected.filter (fun j => !decide (j = i))

/-- Apply deferred commands in emission order. -/
def applySelCmds (cmds : List SelCmd) (selected : List Nat) : List Nat :=
  cmds.foldl applySelCmd selected

/-- `handle_unit_selection` as the command list it queues. `query` is the
`Query<(Entity, &Clickable, ...), With<Selectable>>` rows `(id, clicked)`
in iteration order; `selected` is the `With<SelectedUnit>` query result it
observes (the marker state at the start of the stage, commands being
deferred).  The loop inserts the marker on the first clicked selectable
(and breaks); afterwards, if a clicked selectable existed or
`last_click.was_handled` is false, it queues a removal for every entity
the selected-unit query matched. -/
def handle_unit_selection_cmds (query : List (Nat × Bool))
    (was_handled : Bool) (selected : List Nat) : List SelCmd :=
  let first_clicked := (query.find? (fun q => q.2)).map (fun q => q.1)
  let remove_all := first_clicked.isSome || !was_handled
  (match first_clicked with
    | some c => [SelCmd.ins c]
    | none => []) ++
  (if remove_all then selected.map SelCmd.rem else [])

/-- A unit row of `handle_grid_clicks`' selected-unit query:
`(Entity, &mut GridPosition)`. -/
structure UnitEntity where
  id : Nat
  pos : GridPosition
deriving DecidableEq, Repr

/-- `handle_grid_clicks`: if exactly one entity carries `SelectedUnit`
(`single_mut`), scan the grid tiles for the first clicked one; if its
position is among the `PlayerUnitMovement` highlight positions, the
selected unit's `GridPosition` is overwritten (a direct `&mut` write,
immediate) and its marker removal is queued; otherwise only the removal
is queued.  Returns the updated units and the queued commands. -/
def handle_grid_clicks (units : List UnitEntity) (selected : List Nat)
    (markers : List GridHighlight) (grid_tiles : List (GridPosition × Bool)) :
    List UnitEntity × List SelCmd :=
  match single (units.filter (fun u => decide (u.id ∈ selected))) with
  | some u =>
    let movement_highlight_positions := (markers.filter (fun m =>
      decide (m.highlight_type = GridHighlightType.PlayerUnitMovement))).map
      (fun m => m.pos)
    match grid_tiles.find? (fun t => t.2) with
    | some t =>
      if decide (t.1 ∈ movement_highlight_positions) then
        (units.map (fun v => if v.id = u.id then { v with pos := t.1 } else v),
          [SelCmd.rem u.id])
      else (units, [SelCmd.rem u.id])
    | none => (units, [])
  | none => (units, [])

/-- Per-frame inputs that reach the two selection systems. -/
structure FrameInput where
  query : List (Nat × Bool)
  was_handled : Bool
  markers : List GridHighlight
  grid_tiles : List (GridPosition × Bool)
deriving Repr

/-- One frame of the selection pipeline: `handle_grid_clicks` and
`handle_unit_selection` both observe the frame-start marker state (their
commands are deferred to the end of the stage), and the buffers apply in
system order — `handle_grid_clicks` runs before `handle_unit_selection`. -/
def selection_frame (st : List UnitEntity × List Nat) (inp : FrameInput) :
    List UnitEntity × List Nat :=
  let hgc := handle_grid_clicks st.1 st.2 inp.markers inp.grid_tiles
  let hus := handle_unit_selection_cmds inp.query inp.was_handled st.2
  (hgc.1, applySelCmds (hgc.2 ++ hus) st.2)

theorem applySelCmds_append (c1 c2 : List SelCmd) (s : List Nat) :
    applySelCmds (c1 ++ c2) s = applySelCmds c2 (applySelCmds c1 s) := by
  unfold applySelCmds
  rw [List.foldl_append]

theorem rem_all_eq (l : List Nat) :
    ∀ s : List Nat, applySelCmds (l.map SelCmd.rem) s =
      s.filter (fun j => !decide (j ∈ l)) := by
  induction l with
  | nil =>
    intro s
    simp [applySelCmds]
  | cons a l ih =>
    intro s
    rw [List.map_cons]
    show applySelCmds (SelCmd.rem a :: l.map SelCmd.rem) s = _
    unfold applySelCmds
    rw [List.foldl_cons]
    show applySelCmds (l.map SelCmd.rem) (applySelCmd s (SelCmd.rem a)) = _
    rw [ih]
    show (s.filter (fun j => !decide (j = a))).filter (fun j => !decide (j ∈ l)) = _
    rw [List.filter_filter]
    apply List.filter_congr
    intro j _
    by_cases h1 : j = a
    · simp [h1]
    · by_cases h2 : j ∈ l <;> simp [h1, h2]

theorem filter_not_mem_self (s : List Nat) :
    s.filter (fun j => !decide (j ∈ s)) = [] := by
  rw [List.filter_eq_nil_iff]
  intro a ha
  simp [ha]

theorem hus_eq (query : List (Nat × Bool)) (was_handled : Bool)
    (s s1 : List Nat) :
    applySelCmds (handle_unit_selection_cmds query was_handled s) s1 =
    match (query.find? (fun q => q.2)).map (fun q => q.1) with
    | some c => (if decide (c ∈ s1) then s1 else s1 ++ [c]).filter
        (fun j => !decide (j ∈ s))
    | none => if was_handled then s1 else s1.filter (fun j => !decide (j ∈ s)) := by
  unfold handle_unit_selection_cmds
  cases hfc : (query.find? (fun q => q.2)).map (fun q => q.1) with
  | some c =>
    dsimp only [Option.isSome_some]
    rw [Bool.true_or, if_pos rfl, applySelCmds_append, rem_all_eq]
    show ((applySelCmd s1 (SelCmd.ins c)).filter fun j => !decide (j ∈ s)) = _
    unfold applySelCmd
    rfl
  | none =>
    dsimp only [Option.isSome_none, Bool.false_or]
    cases was_handled with
    | true =>
      show applySelCmds ([] ++ (if (!true : Bool) = true then _ else [])) s1 = s1
      rw [if_neg (by simp)]
      rfl
    | false =>
      show applySelCmds ([] ++ (if (!false : Bool) = true then
        s.map SelCmd.rem else [])) s1 = _
      rw [if_pos (by simp), List.nil_append, rem_all_eq]
      simp

theorem hgc_cmds_shape (units : List UnitEntity) (s : List Nat)
    (markers : List GridHighlight) (grid_tiles : List (GridPosition × Bool)) :
    (handle_grid_clicks units s markers grid_tiles).2 = [] ∨
    ∃ i, (handle_grid_clicks units s markers grid_tiles).2 = [SelCmd.rem i] := by
  unfold handle_grid_clicks
  cases single (units.filter (fun u => decide (u.id ∈ s))) with
  | none => exact Or.inl rfl
  | some u =>
    dsimp only
    cases grid_tiles.find? (fun t => t.2) with
    | none => exact Or.inl rfl
    | some t =>
      dsimp only
      split_ifs
      · exact Or.inr ⟨u.id, rfl⟩
      · exact Or.inr ⟨u.id, rfl⟩

theorem hus_applied_length_le (query : List (Nat × Bool)) (was_handled : Bool)
    (s s1 : List Nat) (hsub : ∀ j ∈ s1, j ∈ s) (hlen : s1.length ≤ 1) :
    (applySelCmds (handle_unit_selection_cmds query was_handled s) s1).length ≤ 1 := by
  rw [hus_eq]
  have hnil : s1.filter (fun j => !decide (j ∈ s)) = [] := by
    rw [List.filter_eq_nil_iff]
    intro a ha
    simp [hsub a ha]
  cases hfc : (query.find? (fun q => q.2)).map (fun q => q.1) with
  | some c =>
    dsimp only
    by_cases hcs : c ∈ s1
    · rw [if_pos (decide_eq_true hcs), hnil]
      simp
    · rw [if_neg (by simpa using hcs), List.filter_append, hnil,
        List.nil_append]
      exact le_trans (List.length_filter_le _ _) (by simp)
  | none =>
    dsimp only
    cases was_handled with
    | true =>
      rw [if_pos rfl]
      exact hlen
    | false =>
      rw [if_neg (by simp), hnil]
      simp

theorem selection_frame_length_le (st : List UnitEntity × List Nat)
    (inp : FrameInput) (h : st.2.length ≤ 1) :
    (selection_frame st inp).2.length ≤ 1 := by
  unfold selection_frame
  dsimp only
  rw [applySelCmds_append]
  rcases hgc_cmds_shape st.1 st.2 inp.markers inp.grid_tiles with hc | ⟨i, hc⟩
  · rw [hc]
    show (applySelCmds _ st.2).length ≤ 1
    exact hus_applied_length_le _ _ _ _ (fun j hj => hj) h
  · rw [hc]
    show (applySelCmds _ (applySelCmds [SelCmd.rem i] st.2)).length ≤ 1
    have h1 : applySelCmds [SelCmd.rem i] st.2 =
        st.2.filter (fun j => !decide (j = i)) := rfl
    rw [h1]
    refine hus_applied_length_le _ _ _ _ ?_ ?_
    · intro j hj
      exact (List.mem_filter.1 hj).1
    · exact le_trans (List.length_filter_le _ _) h

/-- C2: starting from the initial world (no entity carries `SelectedUnit`),
after any sequence of frames of the selection pipeline at most one entity
carries the marker; and whenever `handle_unit_selection` sees a clicked
selectable, every entity that entered the frame selected ends it without
the marker. -/
theorem selection_single_ownership :
    (∀ (inputs : List FrameInput) (units0 : List UnitEntity),
      ((inputs.foldl selection_frame (units0, [])).2).length ≤ 1) ∧
    (∀ (query : List (Nat × Bool)) (was_handled : Bool) (selected : List Nat),
      ((query.find? (fun q => q.2)).isSome) →
      ∀ i ∈ selected,
        i ∉ applySelCmds (handle_unit_selection_cmds query was_handled selected)
          selected) := by
  constructor
  · have hgen : ∀ (inputs : List FrameInput) (st : List UnitEntity × List Nat),
        st.2.length ≤ 1 → ((inputs.foldl selection_frame st).2).length ≤ 1 := by
      intro inputs
      induction inputs with
      | nil =>
        intro st h
        exact h
      | cons inp tl ih =>
        intro st h
        rw [List.foldl_cons]
        exact ih _ (selection_frame_length_le st inp h)
    intro inputs units0
    exact hgen inputs (units0, []) (by simp)
  · intro query was_handled selected hsome i hi hmem
    rw [hus_eq] at hmem
    cases hfc : (query.find? (fun q => q.2)).map (fun q => q.1) with
    | none =>
      rw [Option.isSome_iff_exists] at hsome
      rcases hsome with ⟨q, hq⟩
      rw [hq] at hfc
      exact Option.noConfusion hfc
    | some c =>
      rw [hfc] at hmem
      dsimp only at hmem
      rw [List.mem_filter] at hmem
      rcases hmem with ⟨-, hdec⟩
      rw [Bool.not_eq_true', decide_eq_false_iff_not] at hdec
      exact hdec hi

/-- C2 witness: a clicked selectable (id 1) with entity 2 selected:
entity 2 does not survive the frame. -/
theorem selection_single_ownership_witness :
    (2 : Nat) ∉ applySelCmds (handle_unit_selection_cmds [(1, true)] false [2]) [2] :=
  selection_single_ownership.2 [(1, true)] false [2] (by decide) 2 (by decide)

theorem find?_of_filter_singleton {α : Type} (p : α → Bool) :
    ∀ (l : List α) (x : α), l.filter p = [x] → l.find? p = some x := by
  intro l
  induction l with
  | nil =>
    intro x h
    exact absurd h (by simp)
  | cons a tl ih =>
    intro x h
    cases hp : p a with
    | true =>
      rw [List.filter_cons_of_pos hp] at h
      rw [List.cons.injEq] at h
      rw [List.find?_cons_of_pos _ hp, h.1]
    | false =>
      rw [List.filter_cons_of_neg (by simp [hp])] at h
      rw [List.find?_cons_of_neg _ (by simp [hp])]
      exact ih x h

/-- C3: in a frame where exactly one unit `u` is selected and exactly one
grid tile `t` is clicked, `handle_grid_clicks` overwrites `u`'s
`GridPosition` with `t`'s position and removes `u`'s `SelectedUnit`
marker when `t`'s position carries a `PlayerUnitMovement` highlight;
when it does not, the marker is removed and unit positions are left
unchanged. -/
theorem grid_click_move_spec (units : List UnitEntity) (selected : List Nat)
    (markers : List GridHighlight) (grid_tiles : List (GridPosition × Bool))
    (u : UnitEntity) (t : GridPosition × Bool)
    (hu : units.filter (fun v => decide (v.id ∈ selected)) = [u])
    (ht : grid_tiles.filter (fun x => x.2) = [t]) :
    (t.1 ∈ (markers.filter (fun m =>
        decide (m.highlight_type = GridHighlightType.PlayerUnitMovement))).map
        GridHighlight.pos →
      (∀ v ∈ (handle_grid_clicks units selected markers grid_tiles).1,
        v.id = u.id → v.pos = t.1) ∧
      u.id ∉ applySelCmds
        (handle_grid_clicks units selected markers grid_tiles).2 selected) ∧
    (t.1 ∉ (markers.filter (fun m =>
        decide (m.highlight_type = GridHighlightType.PlayerUnitMovement))).map
        GridHighlight.pos →
      (handle_grid_clicks units selected markers grid_tiles).1 = units ∧
      u.id ∉ applySelCmds
        (handle_grid_clicks units selected markers grid_tiles).2 selected) := by
  have hsingle : single (units.filter (fun v => decide (v.id ∈ selected))) =
      some u := by
    rw [hu]
    rfl
  have hfind : grid_tiles.find? (fun x => x.2) = some t :=
    find?_of_filter_singleton _ grid_tiles t ht
  have hrem : u.id ∉ applySelCmds [SelCmd.rem u.id] selected := by
    show u.id ∉ selected.filter (fun j => !decide (j = u.id))
    intro hmem
    rcases List.mem_filter.1 hmem with ⟨-, hdec⟩
    simp at hdec
  constructor
  · intro hin
    simp only [handle_grid_clicks, hsingle, hfind]
    rw [if_pos (decide_eq_true hin)]
    refine ⟨?_, hrem⟩
    intro v hv hvid
    rw [List.mem_map] at hv
    rcases hv with ⟨w, hw, rfl⟩
    by_cases hwid : w.id = u.id
    · rw [if_pos hwid]
    · rw [if_neg hwid] at hvid ⊢
      exact absurd hvid hwid
  · intro hout
    simp only [handle_grid_clicks, hsingle, hfind]
    rw [if_neg (by simpa using hout)]
    exact ⟨rfl, hrem⟩

/-- C3 witness: unit 1 at (4,4) selected, tile (5,4) clicked and
movement-highlighted: the unit ends at (5,4) and deselected. -/
theorem grid_click_move_spec_witness :
    ((⟨1, ⟨5, 4⟩⟩ : UnitEntity).pos = (⟨5, 4⟩ : GridPosition)) ∧
    (1 : Nat) ∉ applySelCmds
      (handle_grid_clicks [⟨1, ⟨4, 4⟩⟩] [1]
        [⟨⟨5, 4⟩, GridHighlightType.PlayerUnitMovement⟩]
        [(⟨5, 4⟩, true)]).2 [1] :=
  ⟨((grid_click_move_spec [⟨1, ⟨4, 4⟩⟩] [1]
      [⟨⟨5, 4⟩, GridHighlightType.PlayerUnitMovement⟩] [(⟨5, 4⟩, true)]
      ⟨1, ⟨4, 4⟩⟩ (⟨5, 4⟩, true) (by decide) (by decide)).1 (by decide)).1
      ⟨1, ⟨5, 4⟩⟩ (by decide) (by decide),
    ((grid_click_move_spec [⟨1, ⟨4, 4⟩⟩] [1]
      [⟨⟨5, 4⟩, GridHighlightType.PlayerUnitMovement⟩] [(⟨5, 4⟩, true)]
      ⟨1, ⟨4, 4⟩⟩ (⟨5, 4⟩, true) (by decide) (by decide)).1 (by decide)).2⟩

/-- C4 (amended): whenever `LastClick.was_handled` is false at
`handle_unit_selection` time AND no selectable entity is clicked, the
frame ends with no entity selected; the first conjunct shows the
hit-tester guarantees the second condition on every click frame it
leaves `was_handled = false` (it has cleared every clicked flag), so the
claim holds on every reachable frame.  (On an unreachable state that
pairs `was_handled = false` with a clicked selectable, the clicked
entity would end the frame selected: see the counterexample.) -/
theorem unhandled_click_clears_selection :
    (∀ (px py : Rat) (entities : List MouseEntity) (last_click : Bool),
      (handle_mouse_interactions true px py entities last_click).2 = false →
      ∀ e ∈ (handle_mouse_interactions true px py entities last_click).1,
        e.clicked ≠ some true) ∧
    (∀ (query : List (Nat × Bool)) (selected : List Nat),
      (∀ q ∈ query, q.2 = false) →
      applySelCmds (handle_unit_selection_cmds query false selected)
        selected = []) := by
  constructor
  · intro px py entities last_click h e' he'
    cases hw : highest_z_clicked px py entities none with
    | some zi =>
      rw [hmi_result_eq_some px py entities last_click zi hw] at h
      exact absurd h (by simp)
    | none =>
      rw [hmi_result_eq_none px py entities last_click hw] at he'
      dsimp only at he'
      rw [List.mem_map] at he'
      rcases he' with ⟨e, he, rfl⟩
      have hcf := (highest_z_none px py entities none hw).2 e he
      unfold mouse_loop_update
      rw [hcf]
      rw [if_neg (by simp)]
      cases e.clicked <;> simp
  · intro query selected hq
    have hfc : query.find? (fun q => q.2) = none := by
      rw [List.find?_eq_none]
      intro q hqm
      simp [hq q hqm]
    rw [hus_eq, hfc]
    show (if false = true then selected else _) = []
    rw [if_neg (by simp)]
    exact filter_not_mem_self selected

/-- C4 counterexample: `was_handled = false` with a clicked selectable
(id 1, not previously selected): the insert lands after the removals
only touch previously selected entities, so entity 1 ends the frame
selected — the claim requires no entity to end selected. -/
theorem unhandled_click_counterexample :
    applySelCmds (handle_unit_selection_cmds [(1, true)] false []) [] ≠ [] := by
  decide

/-- C4 witness: nothing clicked, `was_handled = false`, entity 2
selected: the frame ends with no selection. -/
theorem unhandled_click_clears_selection_witness :
    applySelCmds (handle_unit_selection_cmds [(1, false)] false [2]) [2] = [] :=
  unhandled_click_clears_selection.2 [(1, false)] [2] (by decide)

/-- The highlight scan of `render_grid_objects`: `PlayerUnitSelected`
markers go to `need_selected_z_level` (second component), every other
kind — including `PlayerHover` — goes to `need_movement_z_level` (first
component, via the wildcard match arm). -/
def collect_highlight_z_levels (markers : List GridHighlight) :
    List GridPosition × List GridPosition :=
  markers.foldl (fun acc gh =>
    match gh.highlight_type with
    | GridHighlightType.PlayerUnitSelected => (acc.1, acc.2 ++ [gh.pos])
    | _ => (acc.1 ++ [gh.pos], acc.2)) ([], [])

/-- The per-entity render depth of `render_grid_objects`: 10 for grid
entities, else 9 (selected level), else 5 (the `need_movement_z_level`
list), else 1. -/
def render_z (markers : List GridHighlight) (is_grid_entity : Bool)
    (pos : GridPosition) : Rat :=
  let levels := collect_highlight_z_levels markers
  if is_grid_entity then 10
  else if decide (pos ∈ levels.2) then 9
  else if decide (pos ∈ levels.1) then 5
  else 1

theorem collect_highlight_z_levels_eq :
    ∀ (markers : List GridHighlight) (acc : List GridPosition × List GridPosition),
      markers.foldl (fun acc gh =>
        match gh.highlight_type with
        | GridHighlightType.PlayerUnitSelected => (acc.1, acc.2 ++ [gh.pos])
        | _ => (acc.1 ++ [gh.pos], acc.2)) acc =
      (acc.1 ++ (markers.filter (fun m =>
        !decide (m.highlight_type = GridHighlightType.PlayerUnitSelected))).map
        GridHighlight.pos,
       acc.2 ++ (markers.filter (fun m =>
        decide (m.highlight_type = GridHighlightType.PlayerUnitSelected))).map
        GridHighlight.pos) := by
  intro markers
  induction markers with
  | nil =>
    intro acc
    simp
  | cons m tl ih =>
    intro acc
    rw [List.foldl_cons]
    cases hk : m.highlight_type with
    | PlayerUnitSelected =>
      dsimp only
      rw [ih]
      simp [List.filter_cons, hk]
    | PlayerUnitMovement =>
      dsimp only
      rw [ih]
      simp [List.filter_cons, hk]
    | PlayerHover =>
      dsimp only
      rw [ih]
      simp [List.filter_cons, hk]

theorem mem_sel_map (markers : List GridHighlight) (pos : GridPosition) :
    pos ∈ (markers.filter (fun m =>
      decide (m.highlight_type = GridHighlightType.PlayerUnitSelected))).map
      GridHighlight.pos ↔
    GridHighlight.mk pos GridHighlightType.PlayerUnitSelected ∈ markers := by
  constructor
  · intro h
    rw [List.mem_map] at h
    rcases h with ⟨m, hm, rfl⟩
    rw [List.mem_filter] at hm
    have hk := of_decide_eq_true hm.2
    have hme : m = GridHighlight.mk m.pos GridHighlightType.PlayerUnitSelected := by
      cases m
      simp_all
    rw [← hme]
    exact hm.1
  · intro h
    rw [List.mem_map]
    exact ⟨GridHighlight.mk pos GridHighlightType.PlayerUnitSelected,
      List.mem_filter.2 ⟨h, by simp⟩, rfl⟩

theorem mem_nonsel_map (markers : List GridHighlight) (pos : GridPosition) :
    pos ∈ (markers.filter (fun m =>
      !decide (m.highlight_type = GridHighlightType.PlayerUnitSelected))).map
      GridHighlight.pos ↔
    (GridHighlight.mk pos GridHighlightType.PlayerUnitMovement ∈ markers ∨
      GridHighlight.mk pos GridHighlightType.PlayerHover ∈ markers) := by
  constructor
  · intro h
    rw [List.mem_map] at h
    rcases h with ⟨m, hm, rfl⟩
    rw [List.mem_filter] at hm
    rcases hm with ⟨hmem, hns⟩
    rw [Bool.not_eq_true', decide_eq_false_iff_not] at hns
    cases hmk : m.highlight_type with
    | PlayerUnitSelected => exact absurd hmk hns
    | PlayerUnitMovement =>
      refine Or.inl ?_
      have hme : m = GridHighlight.mk m.pos GridHighlightType.PlayerUnitMovement := by
        cases m
        simp_all
      rw [← hme]
      exact hmem
    | PlayerHover =>
      refine Or.inr ?_
      have hme : m = GridHighlight.mk m.pos GridHighlightType.PlayerHover := by
        cases m
        simp_all
      rw [← hme]
      exact hmem
  · intro h
    rw [List.mem_map]
    rcases h with h | h
    · exact ⟨GridHighlight.mk pos GridHighlightType.PlayerUnitMovement,
        List.mem_filter.2 ⟨h, by simp⟩, rfl⟩
    · exact ⟨GridHighlight.mk pos GridHighlightType.PlayerHover,
        List.mem_filter.2 ⟨h, by simp⟩, rfl⟩

/-- C7 (amended): the render depth of `render_grid_objects` is 10 for a
grid entity; else 9 when the cell carries a `PlayerUnitSelected` marker;
else 5 when the cell carries a `PlayerUnitMovement` OR a `PlayerHover`
marker (the source's wildcard match arm routes hover positions into the
same `need_movement_z_level` list); else 1.  The claim's `else 1` for a
hover-only cell is refuted by the counterexample. -/
theorem render_z_spec (markers : List GridHighlight) (is_grid_entity : Bool)
    (pos : GridPosition) :
    render_z markers is_grid_entity pos =
    if is_grid_entity then 10
    else if GridHighlight.mk pos GridHighlightType.PlayerUnitSelected ∈ markers
      then 9
    else if GridHighlight.mk pos GridHighlightType.PlayerUnitMovement ∈ markers ∨
        GridHighlight.mk pos GridHighlightType.PlayerHover ∈ markers then 5
    else 1 := by
  unfold render_z collect_highlight_z_levels
  rw [collect_highlight_z_levels_eq]
  dsimp only
  rw [List.nil_append, List.nil_append]
  cases is_grid_entity with
  | true => rfl
  | false =>
    simp only [Bool.false_eq_true, if_false]
    by_cases hsel : GridHighlight.mk pos GridHighlightType.PlayerUnitSelected ∈
        markers
    · rw [if_pos hsel, if_pos (decide_eq_true ((mem_sel_map markers pos).2 hsel))]
    · rw [if_neg hsel, if_neg (by
        simp only [decide_eq_true_eq]
        exact fun hc => hsel ((mem_sel_map markers pos).1 hc))]
      by_cases hmov : GridHighlight.mk pos GridHighlightType.PlayerUnitMovement ∈
          markers ∨ GridHighlight.mk pos GridHighlightType.PlayerHover ∈ markers
      · rw [if_pos hmov,
          if_pos (decide_eq_true ((mem_nonsel_map markers pos).2 hmov))]
      · rw [if_neg hmov, if_neg (by
          simp only [decide_eq_true_eq]
          exact fun hc => hmov ((mem_nonsel_map markers pos).1 hc))]

/-- C7 counterexample: a cell carrying only a `PlayerHover` marker, for a
non-grid entity: the computed depth is 5, not the claimed 1. -/
theorem render_z_counterexample :
    render_z [⟨⟨2, 2⟩, GridHighlightType.PlayerHover⟩] false ⟨2, 2⟩ ≠ 1 := by
  decide

/-- `RenderSettings { tile_size, tile_scale, camera_offset }`. -/
structure RenderSettings where
  tile_size : Rat
  tile_scale : Rat
  camera_offset_x : Rat
  camera_offset_y : Rat
deriving DecidableEq, Repr

/-- The screen center computed by `render_grid_objects`:
`camera_offset + tile_size * tile_scale * pos - adjustment`, with the
staggering `adjustment = pos * tile_size * tile_scale / 16` per axis. -/
def screen_center (rs : RenderSettings) (pos : GridPosition) : Rat × Rat :=
  let x_adjustment := (pos.x : Rat) * rs.tile_size * rs.tile_scale / 16
  let y_adjustment := (pos.y : Rat) * rs.tile_size * rs.tile_scale / 16
  (rs.camera_offset_x + rs.tile_size * rs.tile_scale * (pos.x : Rat) - x_adjustment,
   rs.camera_offset_y + rs.tile_size * rs.tile_scale * (pos.y : Rat) - y_adjustment)

/-- The bounding-box write of `render_grid_objects` (lines 451-458): each
edge is the quarter-tile offset from the computed center, minus one. -/
def bounding_box_update (center_x center_y tile_size x_scale y_scale : Rat) :
    BBox :=
  { top := center_y + tile_size / 4 * y_scale - 1,
    bottom := center_y - tile_size / 4 * y_scale - 1,
    right := center_x + tile_size / 4 * x_scale - 1,
    left := center_x - tile_size / 4 * x_scale - 1 }

/-- C8 (amended): the recomputed bounding box has exactly the
quarter-of-scaled-tile size per side (width `2 * (tile_size/4 * x_scale)`,
height `2 * (tile_size/4 * y_scale)` — NOT strictly smaller), and it is
the box centered one pixel down and left of the computed screen position:
the `- 1` on all four edges is a translation, moving the top and right
edges inward but the bottom and left edges outward. -/
theorem bounding_box_spec (cx cy ts xs ys : Rat) :
    (bounding_box_update cx cy ts xs ys).right -
      (bounding_box_update cx cy ts xs ys).left = 2 * (ts / 4 * xs) ∧
    (bounding_box_update cx cy ts xs ys).top -
      (bounding_box_update cx cy ts xs ys).bottom = 2 * (ts / 4 * ys) ∧
    ((bounding_box_update cx cy ts xs ys).left +
      (bounding_box_update cx cy ts xs ys).right) / 2 = cx - 1 ∧
    ((bounding_box_update cx cy ts xs ys).bottom +
      (bounding_box_update cx cy ts xs ys).top) / 2 = cy - 1 := by
  unfold bounding_box_update
  refine ⟨by ring, by ring, by ring, by ring⟩

/-- C8 counterexample: with tile size 64 and axis scales 4, the box's
left edge lies strictly OUTSIDE the unbiased quarter-tile box around the
center (0,0) — the claim's "1 pixel inward on every edge / strictly
smaller" fails on the left (and bottom) edge. -/
theorem bounding_box_counterexample :
    (bounding_box_update 0 0 64 4 4).left < 0 - 64 / 4 * 4 := by
  norm_num [bounding_box_update]

/-- C10 witness: the hover pass run on a hovered tile (2,2) spawns a
marker, and that spawned marker is of the hover kind. -/
theorem pass_kind_isolation_witness :
    (⟨⟨2, 2⟩, GridHighlightType.PlayerHover⟩ : GridHighlight).highlight_type =
      GridHighlightType.PlayerHover :=
  (pass_kind_isolation [] [(⟨2, 2⟩, true)] [] [] []).1.2.1
    ⟨⟨2, 2⟩, GridHighlightType.PlayerHover⟩ (by decide)
